import Mathlib

/-!
Shallow embedding of the event-synchronization core of
`force-app/main/default/lwc/calendar/calendar.js` (FullCalendarJs LWC).

Modelling conventions:
* JS millisecond timestamps are `Int` (`Date.getTime()` values).
* JS numbers used for hour totals are `ℚ` (all source values are exact
  decimal fractions, so rationals model them faithfully).
* `end` is a Lean keyword, so the source field `end` is named `stop`.
* The module constant `TIMEZONE_OFFSET = (new Date()).getTimezoneOffset() * 60000`
  is a session-fixed value; it is threaded through as a parameter `tzOffset`.
  Local wall-clock time of a timestamp `t` is `t - tzOffset`.
* The module constant `START_OF_THE_YEAR = new Date(year, 0, 1)` is likewise
  threaded through as a parameter `startOfYear`.
-/

/-- MILLISECONDS_PER_HOUR from the source (1000 * 60 * 60). -/
def msPerHour : Int := 1000 * 60 * 60

/-- MILLISECONDS_PER_YEAR from the source (1000 * 60 * 60 * 24): despite the
name it is the number of milliseconds in a day. -/
def msPerDay : Int := 1000 * 60 * 60 * 24

/-- WEEKDAYS from the source: a Monday-first weekday label table. -/
def WEEKDAYS : List String := ["Mon", "Tue", "Wed", "Thu", "Fri", "Sat", "Sun"]

/-- Model of JS `x.toFixed(2)` read back as a numeric value: round to the
nearest hundredth. -/
def toFixed2 (q : ℚ) : ℚ := (round (q * 100) : ℤ) / 100

/-- Civil calendar date to days since the Unix epoch (the standard
era-based conversion; used to model JS `Date` UTC date arithmetic). -/
def daysFromCivil (y : Int) (m d : Nat) : Int :=
  let y := y - (if m ≤ 2 then 1 else 0)
  let era := Int.ediv y 400
  let yoe := y - era * 400
  let doy := Int.ediv (153 * ((m : Int) + (if 2 < m then -3 else 9)) + 2) 5 + d - 1
  let doe := yoe * 365 + Int.ediv yoe 4 - Int.ediv yoe 100 + doy
  era * 146097 + doe - 719468

/-- Days since the Unix epoch to the civil calendar date (year, month, day). -/
def civilFromDays (z0 : Int) : Int × Nat × Nat :=
  let z := z0 + 719468
  let era := Int.ediv z 146097
  let doe := (z - era * 146097).toNat
  let yoe := (doe - doe / 1460 + doe / 36524 - doe / 146096) / 365
  let y := (yoe : Int) + era * 400
  let doy := doe - (365 * yoe + yoe / 4 - yoe / 100)
  let mp := (5 * doy + 2) / 153
  let d := doy - (153 * mp + 2) / 5 + 1
  let m := if mp < 10 then mp + 3 else mp - 9
  (y + (if m ≤ 2 then 1 else 0), m, d)

/-- Left-pad a number to two digits. -/
def padTwo (n : Nat) : String := if n < 10 then "0" ++ toString n else toString n

/-- Left-pad a number to four digits. -/
def padFour (n : Nat) : String :=
  if n < 10 then "000" ++ toString n
  else if n < 100 then "00" ++ toString n
  else if n < 1000 then "0" ++ toString n
  else toString n

/-- Model of `new Date(t).toISOString().split('T')[0]`: the ISO date portion
(UTC calendar date) of a millisecond timestamp. -/
def toISODateString (t : Int) : String :=
  let c := civilFromDays (Int.ediv t msPerDay)
  padFour c.1.toNat ++ "-" ++ padTwo c.2.1 ++ "-" ++ padTwo c.2.2

/-- Split a character list on the dash character. -/
def splitOnDash : List Char → List (List Char)
  | [] => [[]]
  | c :: cs =>
    let r := splitOnDash cs
    if c = '-' then [] :: r
    else
      match r with
      | [] => [[c]]
      | g :: gs => (c :: g) :: gs

/-- Read a non-empty run of decimal digits as a number. -/
def digitsVal (cs : List Char) : Option Nat :=
  cs.foldl
    (fun acc c =>
      match acc with
      | none => none
      | some n => if c.isDigit then some (n * 10 + (c.toNat - 48)) else none)
    (some 0)

/-- Model of `new Date(title).getTime()` for a `YYYY-MM-DD` string: UTC
midnight of that calendar date; `none` models an invalid date (JS `NaN`). -/
def parseISODate (s : String) : Option Int :=
  match splitOnDash s.data with
  | [ys, ms, ds] =>
    match digitsVal ys, digitsVal ms, digitsVal ds with
    | some y, some m, some d =>
      if ys.length = 4 ∧ 1 ≤ m ∧ m ≤ 12 ∧ 1 ≤ d ∧ d ≤ 31 then
        some (daysFromCivil (y : Int) m d * msPerDay)
      else none
    | _, _, _ => none
  | _ => none

/-- Source `convertUtcTime` per field: `new Date(new Date(v).getTime() + TIMEZONE_OFFSET)`. -/
def convertUtcTime (tzOffset t : Int) : Int := t + tzOffset

/-- Source `convertLocalTime` per field: `new Date(new Date(v) - TIMEZONE_OFFSET)`. -/
def convertLocalTime (tzOffset t : Int) : Int := t - tzOffset

/-- Model of JS `Date.getDay()` (Sunday-first index 0..6) for timestamp `t`
in the session zone: the epoch day of local wall-clock time, plus 4 because
1970-01-01 was a Thursday, modulo 7. -/
def jsGetDay (tzOffset t : Int) : Int :=
  (Int.ediv (t - tzOffset) msPerDay + 4) % 7

/-- Source `getWeekdayName(date)`: `WEEKDAYS[date.getDay()]`. -/
def getWeekdayName (tzOffset t : Int) : String :=
  WEEKDAYS.getD (jsGetDay tzOffset t).toNat ""

/-- Source `getWeekNumber(date)`:
`Math.ceil((((date - START_OF_THE_YEAR) / MILLISECONDS_PER_YEAR) + 1) / WEEKDAYS.length)`. -/
def getWeekNumber (startOfYear date : Int) : Int :=
  Int.ceil ((((date : ℚ) - (startOfYear : ℚ)) / (msPerDay : ℚ) + 1) / 7)

/-- Source `calculateWorkingHours`: `(endDate - startDate) / MILLISECONDS_PER_HOUR`
with `.toFixed(2)`. -/
def calculateWorkingHours (start stop : Int) : ℚ :=
  toFixed2 (((stop : ℚ) - (start : ℚ)) / (msPerHour : ℚ))

/-- A cached calendar event as built by the wire handler and `saveEvent`:
`{id, title, start, end, hours}` (`end` is named `stop`). -/
structure CalEvent where
  id : String
  title : String
  start : Int
  stop : Int
  hours : ℚ
deriving DecidableEq

/-- A raw record returned by `fetchEvents`:
`{Id, Name, StartDateTime__c, EndDateTime__c, Hours__c}`. -/
structure RawEvent where
  recId : String
  name : String
  startDateTime : Int
  endDateTime : Int
  hoursField : ℚ
deriving DecidableEq

/-- A logged call against the FullCalendar widget. -/
inductive WidgetCall where
  | renderOne (title : String) (start stop : Int) (hours : ℚ)
  | removeAll
  | renderAll (events : List CalEvent)
  | removeOne (id : Option String)
  | updateOne (ev : CalEvent)
deriving DecidableEq

/-- Component state relevant to the readiness race between resource loading
and the `fetchEvents` wire, plus observation logs: `initCount` counts
invocations of `initialiseFullCalendarJs`, `widgetCalls` logs the widget
render/remove calls, `toasts` logs user notifications that were actually
delivered, and `threw` records that an exception escaped a handler. -/
structure CalState where
  events : List CalEvent
  fullCalendarJsInitialised : Bool
  calendarLoaded : Bool
  eventsRendered : Bool
  initCount : Nat
  widgetCalls : List WidgetCall
  toasts : List String
  threw : Bool
deriving DecidableEq

/-- Source `initialiseFullCalendarJs()`: sets up the FullCalendar widget;
here only its invocation is observable, counted in `initCount`. -/
def initialiseFullCalendarJs (s : CalState) : CalState :=
  { s with initCount := s.initCount + 1 }

/-- Source `renderCalendar()`: returns unless the scripts are loaded and the
event list is non-empty; otherwise invokes `initialiseFullCalendarJs`. -/
def renderCalendar (s : CalState) : CalState :=
  if ¬s.calendarLoaded ∨ s.events.length = 0 then s
  else initialiseFullCalendarJs s

/-- Source `renderedCallback`'s `Promise.all(...).then` continuation: marks
the resources loaded, conditionally calls `renderCalendar`, then calls
`initialiseFullCalendarJs` unconditionally. -/
def resourcesLoadedThen (s : CalState) : CalState :=
  let s1 := { s with fullCalendarJsInitialised := true, calendarLoaded := true }
  let s2 := if 0 < s1.events.length then renderCalendar s1 else s1
  initialiseFullCalendarJs s2

/-- Source wired handler `eventList(value)`: on data, replaces the cache with
the mapped records and either renders the calendar for the first time or
re-renders the events wholesale. On error, the code sets `this.events = []`
and then calls `this.showToast(error.message.body, this.TOAST_VARIANT.error)`;
`TOAST_VARIANT` is a module constant that is never attached to the instance,
so `this.TOAST_VARIANT` is `undefined` and evaluating `.error` on it throws a
TypeError before `showToast` runs — the cache is cleared but no notification
is delivered, and the exception escapes the handler (`threw`). -/
def eventList (s : CalState) (value : Except String (List RawEvent)) : CalState :=
  match value with
  | .ok data =>
    let s1 := { s with
      events := data.map (fun e =>
        ⟨e.recId, e.name, e.startDateTime, e.endDateTime, e.hoursField⟩) }
    if ¬s1.eventsRendered then
      let s2 := renderCalendar s1
      { s2 with eventsRendered := true }
    else
      { s1 with widgetCalls := s1.widgetCalls ++ [.removeAll, .renderAll s1.events] }
  | .error _ =>
    { s with events := [], threw := true }

/-- The form draft `selectedEvent`: `{title, start, end, weekday, hours}`
plus the `id` attached when editing (`end` is named `stop`). The source
DEFAULT_FORM holds empty strings for `start`/`end`; the timestamps are
modelled as `0` there. -/
structure SelectedEvent where
  id : Option String
  title : String
  start : Int
  stop : Int
  weekday : String
  hours : ℚ
deriving DecidableEq

/-- Source DEFAULT_FORM. -/
def DEFAULT_FORM : SelectedEvent :=
  { id := none, title := "", start := 0, stop := 0, weekday := "", hours := 0 }

/-- Source `createTitleBasedOnStartDate()`: the title becomes the ISO date
portion of `selectedEvent.start` and the weekday label is looked up from the
date re-parsed from that title. -/
def createTitleBasedOnStartDate (tzOffset : Int) (sel : SelectedEvent) : SelectedEvent :=
  let title := toISODateString sel.start
  let weekday :=
    match parseISODate title with
    | some d => getWeekdayName tzOffset d
    | none => "undefined"
  { sel with title := title, weekday := weekday }

/-- A change to one named form field, as dispatched by `changeHandler`. -/
inductive FormField where
  | title (v : String)
  | start (v : Int)
  | stop (v : Int)

/-- Source `changeHandler(event)`: copies the draft with the one named field
replaced, then recomputes `hours` via `calculateWorkingHours`. -/
def changeHandler (sel : SelectedEvent) (f : FormField) : SelectedEvent :=
  let sel' :=
    match f with
    | .title v => { sel with title := v }
    | .start v => { sel with start := v }
    | .stop v => { sel with stop := v }
  { sel' with hours := calculateWorkingHours sel'.start sel'.stop }

/-- Component state relevant to the CRUD coordinator: the cache, the draft,
the selected id, the UI flags, and observation logs (`widgetCalls`, `toasts`,
`refreshCount` counting `refreshApex` triggers). -/
structure MutState where
  events : List CalEvent
  selectedEvent : SelectedEvent
  selectedId : Option String
  widgetCalls : List WidgetCall
  openSpinner : Bool
  openModal : Bool
  toasts : List String
  refreshCount : Nat
deriving DecidableEq

/-- Source `saveEvent()`: reads `start`/`end` from the form inputs, derives
UTC times, hours and title, then sends the create call; the continuation for
server response `resp` (the returned id on success) renders the new event on
the widget, appends it to the cache and resets the form; the failure
continuation only notifies and clears the flags. -/
def saveEvent (tzOffset formStart formStop : Int) (resp : Except String String)
    (s : MutState) : MutState :=
  let s1 := { s with
    openSpinner := true,
    selectedEvent := { s.selectedEvent with start := formStart, stop := formStop } }
  let utcStart := convertUtcTime tzOffset s1.selectedEvent.start
  let utcStop := convertUtcTime tzOffset s1.selectedEvent.stop
  let s2 := { s1 with selectedEvent := { s1.selectedEvent with
    hours := calculateWorkingHours s1.selectedEvent.start s1.selectedEvent.stop } }
  let s3 := { s2 with selectedEvent := createTitleBasedOnStartDate tzOffset s2.selectedEvent }
  let sel := s3.selectedEvent
  match resp with
  | .ok result =>
    { s3 with
      widgetCalls := s3.widgetCalls ++ [.renderOne sel.title utcStart utcStop sel.hours],
      events := s3.events ++ [⟨result, sel.title, sel.start, sel.stop, sel.hours⟩],
      selectedId := none,
      selectedEvent := DEFAULT_FORM,
      toasts := s3.toasts ++ ["Your record is created!"],
      openSpinner := false,
      openModal := false,
      refreshCount := s3.refreshCount + 1 }
  | .error msg =>
    { s3 with toasts := s3.toasts ++ [msg], openSpinner := false, openModal := false }

/-- Source `removeEvent()`: sends the delete call for `selectedId`; the
success continuation removes the visual event from the widget (the cache is
not touched), resets the selection and triggers a refresh; the failure
continuation only notifies and clears the flags. -/
def removeEvent (resp : Except String Unit) (s : MutState) : MutState :=
  let s1 := { s with openSpinner := true }
  match resp with
  | .ok _ =>
    { s1 with
      widgetCalls := s1.widgetCalls ++ [.removeOne s1.selectedId],
      selectedId := none,
      selectedEvent := DEFAULT_FORM,
      toasts := s1.toasts ++ ["Your record is deleted!"],
      openSpinner := false,
      openModal := false,
      refreshCount := s1.refreshCount + 1 }
  | .error msg =>
    { s1 with toasts := s1.toasts ++ [msg], openSpinner := false, openModal := false }

/-- Source `editEvent()`: recomputes UTC times and hours from the draft, then
sends the update call; the success continuation looks up the widget's client
event by `selectedEvent.id` (`clientEvents(id)[0]`; with an undefined id the
widget returns all events, so the first one), patches its id, start, end and
hours (leaving its title), issues the widget `updateEvent` call and triggers
a refresh — the cache is not touched. If the lookup yields nothing the
assignment throws inside the `.then` handler and control reaches the
`.catch` continuation, which only notifies and clears the flags. -/
def editEvent (tzOffset : Int) (clientEvents : List CalEvent)
    (resp : Except String Unit) (s : MutState) : MutState :=
  let s1 := { s with openSpinner := true }
  let utcStart := convertUtcTime tzOffset s1.selectedEvent.start
  let utcStop := convertUtcTime tzOffset s1.selectedEvent.stop
  let s2 := { s1 with selectedEvent := { s1.selectedEvent with
    hours := calculateWorkingHours s1.selectedEvent.start s1.selectedEvent.stop } }
  match resp with
  | .ok _ =>
    let found : Option CalEvent :=
      match s2.selectedEvent.id with
      | some i => clientEvents.find? (fun (e : CalEvent) => e.id == i)
      | none => clientEvents.head?
    match found with
    | some ce =>
      let patched : CalEvent :=
        { ce with
          id := (s2.selectedEvent.id).getD ce.id,
          start := utcStart,
          stop := utcStop,
          hours := s2.selectedEvent.hours }
      { s2 with
        widgetCalls := s2.widgetCalls ++ [.updateOne patched],
        selectedId := none,
        selectedEvent := DEFAULT_FORM,
        toasts := s2.toasts ++ ["Your record is updated!"],
        openSpinner := false,
        openModal := false,
        refreshCount := s2.refreshCount + 1 }
    | none =>
      { s2 with
        toasts := s2.toasts ++ ["TypeError"],
        openSpinner := false,
        openModal := false }
  | .error msg =>
    { s2 with toasts := s2.toasts ++ [msg], openSpinner := false, openModal := false }

/-- A per-date group inside a week group: `{title, weekday, events, dailyTotalHours}`. -/
structure DateGroup where
  title : String
  weekday : String
  events : List CalEvent
  dailyTotalHours : ℚ
deriving DecidableEq

/-- A per-week group: `{weekNumber, weeks, weeklyTotalHours}`. The week
number is `none` when the event title did not parse as a date (JS `NaN`). -/
structure WeekGroup where
  weekNumber : Option Int
  weeks : List DateGroup
  weeklyTotalHours : ℚ
deriving DecidableEq

/-- Find-or-create the date group with the given title and push the event
into it, adding its hours to the daily total (the `weekGroup` find-or-create
and pushes inside `groupedEventsBasedOnWeekNumber`). -/
def addToDateGroups (title weekday : String) (ev : CalEvent) :
    List DateGroup → List DateGroup
  | [] => [⟨title, weekday, [ev], ev.hours⟩]
  | g :: gs =>
    if g.title = title then
      { g with events := g.events ++ [ev], dailyTotalHours := g.dailyTotalHours + ev.hours } :: gs
    else
      g :: addToDateGroups title weekday ev gs

/-- Find-or-create the week group keyed by `weekNumber` and add the event to
its date groups, adding its hours to the weekly total (the
`groupedEvents[weekNumber]` find-or-create inside
`groupedEventsBasedOnWeekNumber`). -/
def addToWeekGroups (weekNumber : Option Int) (title weekday : String) (ev : CalEvent) :
    List WeekGroup → List WeekGroup
  | [] => [⟨weekNumber, [⟨title, weekday, [ev], ev.hours⟩], ev.hours⟩]
  | w :: ws =>
    if w.weekNumber = weekNumber then
      { w with
        weeks := addToDateGroups title weekday ev w.weeks,
        weeklyTotalHours := w.weeklyTotalHours + ev.hours } :: ws
    else
      w :: addToWeekGroups weekNumber title weekday ev ws

/-- Lexicographic comparison of character sequences by code point; models the
ordering that `localeCompare` induces on ISO date strings. -/
def charListLe : List Char → List Char → Bool
  | [], _ => true
  | _ :: _, [] => false
  | a :: as, b :: bs =>
    if a.toNat < b.toNat then true
    else if b.toNat < a.toNat then false
    else charListLe as bs

/-- Lexicographic string comparison (the order `a.localeCompare(b)` sorts by). -/
def strLe (a b : String) : Bool := charListLe a.data b.data

theorem charListLe_cons_iff (a b : Char) (as bs : List Char) :
    charListLe (a :: as) (b :: bs) = true ↔
      a.toNat < b.toNat ∨ (a.toNat = b.toNat ∧ charListLe as bs = true) := by
  simp only [charListLe]
  split_ifs with h1 h2
  · simp [h1]
  · simp only [Bool.false_eq_true, false_iff]
    rintro (h | ⟨h, -⟩) <;> omega
  · have he : a.toNat = b.toNat := by omega
    simp [he]

theorem charListLe_total (as bs : List Char) :
    charListLe as bs = true ∨ charListLe bs as = true := by
  induction as generalizing bs with
  | nil => left; rfl
  | cons a as ih =>
    cases bs with
    | nil => right; rfl
    | cons b bs =>
      rcases Nat.lt_trichotomy a.toNat b.toNat with h | h | h
      · left; rw [charListLe_cons_iff]; exact Or.inl h
      · rcases ih bs with hr | hr
        · left; rw [charListLe_cons_iff]; exact Or.inr ⟨h, hr⟩
        · right; rw [charListLe_cons_iff]; exact Or.inr ⟨h.symm, hr⟩
      · right; rw [charListLe_cons_iff]; exact Or.inl h

theorem charListLe_trans (as bs cs : List Char)
    (h1 : charListLe as bs = true) (h2 : charListLe bs cs = true) :
    charListLe as cs = true := by
  induction as generalizing bs cs with
  | nil => rfl
  | cons a as ih =>
    cases bs with
    | nil => simp [charListLe] at h1
    | cons b bs =>
      cases cs with
      | nil => simp [charListLe] at h2
      | cons c cs =>
        rw [charListLe_cons_iff] at h1 h2 ⊢
        rcases h1 with h1 | ⟨h1e, h1r⟩
        · rcases h2 with h2 | ⟨h2e, h2r⟩
          · exact Or.inl (by omega)
          · exact Or.inl (by omega)
        · rcases h2 with h2 | ⟨h2e, h2r⟩
          · exact Or.inl (by omega)
          · exact Or.inr ⟨by omega, ih bs cs h1r h2r⟩

/-- The `a.title.localeCompare(b.title)` ascending comparator used on date
groups. -/
def dateGroupLe (a b : DateGroup) : Prop := strLe a.title b.title = true

instance : DecidableRel dateGroupLe := fun a b =>
  inferInstanceAs (Decidable (strLe a.title b.title = true))

instance : IsTotal DateGroup dateGroupLe :=
  ⟨fun a b => charListLe_total a.title.data b.title.data⟩

instance : IsTrans DateGroup dateGroupLe :=
  ⟨fun a b c h1 h2 => charListLe_trans a.title.data b.title.data c.title.data h1 h2⟩

/-- Ascending order on optional week numbers (missing week numbers model JS
`NaN` keys, whose sort position the source leaves unspecified; they are
placed first here). -/
def weekNumberLe : Option Int → Option Int → Prop
  | none, _ => True
  | some _, none => False
  | some x, some y => x ≤ y

instance : DecidableRel weekNumberLe := fun a b =>
  match a, b with
  | none, _ => isTrue trivial
  | some _, none => isFalse id
  | some x, some y => inferInstanceAs (Decidable (x ≤ y))

/-- The `a.weekNumber - b.weekNumber` ascending comparator used on week groups. -/
def weekGroupLe (a b : WeekGroup) : Prop := weekNumberLe a.weekNumber b.weekNumber

instance : DecidableRel weekGroupLe := fun a b =>
  inferInstanceAs (Decidable (weekNumberLe a.weekNumber b.weekNumber))

theorem weekNumberLe_total (a b : Option Int) : weekNumberLe a b ∨ weekNumberLe b a := by
  cases a with
  | none => exact Or.inl trivial
  | some x =>
    cases b with
    | none => exact Or.inr trivial
    | some y => exact le_total x y

theorem weekNumberLe_trans (a b c : Option Int)
    (h1 : weekNumberLe a b) (h2 : weekNumberLe b c) : weekNumberLe a c := by
  cases a with
  | none => trivial
  | some x =>
    cases b with
    | none => exact absurd h1 id
    | some y =>
      cases c with
      | none => exact absurd h2 id
      | some z => exact le_trans h1 h2

instance : IsTotal WeekGroup weekGroupLe :=
  ⟨fun a b => weekNumberLe_total a.weekNumber b.weekNumber⟩

instance : IsTrans WeekGroup weekGroupLe :=
  ⟨fun a b c h1 h2 => weekNumberLe_trans a.weekNumber b.weekNumber c.weekNumber h1 h2⟩

/-- Source getter `groupedEventsBasedOnWeekNumber`: fold the cached events
into week groups keyed by the week number of the date parsed from the event
title, with date groups keyed by the title inside; then sort each week's
date groups by title and the week groups by week number. -/
def groupedEventsBasedOnWeekNumber (tzOffset startOfYear : Int)
    (events : List CalEvent) : List WeekGroup :=
  let grouped := events.foldl
    (fun acc ev =>
      let date := parseISODate ev.title
      let weekNumber := date.map (getWeekNumber startOfYear)
      let weekday :=
        match date with
        | some d => getWeekdayName tzOffset d
        | none => "undefined"
      addToWeekGroups weekNumber ev.title weekday ev acc)
    []
  let sortedWithin := grouped.map
    (fun w => { w with weeks := List.insertionSort dateGroupLe w.weeks })
  List.insertionSort weekGroupLe sortedWithin

/-! Concrete fixtures used by the claim theorems. Timestamps:
`1719187200000 = 2024-06-24T00:00Z` (a Monday), `1719223200000 = 2024-06-24T10:00Z`,
`1719230400000 = 2024-06-24T12:00Z`, `1719136800000 = 2024-06-23T10:00Z` (a Sunday),
`1719792000000 = 2024-07-01T00:00Z`, `1704067200000 = 2024-01-01T00:00Z`. -/

/-- Component state before either asynchronous completion has arrived. -/
def initialCalState : CalState := ⟨[], false, false, false, 0, [], [], false⟩

/-- A raw fetched record, as the wire returns it. -/
def sampleRaw : RawEvent := ⟨"1", "2024-06-24", 1719223200000, 1719244800000, 6⟩

/-- Coordinator state with an empty cache and a draft titled `A`. -/
def c2State : MutState :=
  ⟨[], { DEFAULT_FORM with title := "A" }, none, [], false, false, [], 0⟩

/-- Draft start `2024-06-24T10:00Z`. -/
def c2Start : Int := 1719223200000

/-- Draft end two hours after `c2Start`. -/
def c2Stop : Int := 1719230400000

/-- A cached record with id `1` and a two-hour span. -/
def c3Old : CalEvent := ⟨"1", "2024-06-24", 1719223200000, 1719230400000, 2⟩

/-- Coordinator state caching `c3Old` with a draft for id `1` whose start and
end differ from the cached values. -/
def c3State : MutState :=
  ⟨[c3Old],
   { DEFAULT_FORM with id := some "1", start := 1719226800000, stop := 1719237600000 },
   some "1", [], false, false, [], 0⟩

/-- A cached record with id `42`. -/
def ev42 : CalEvent := ⟨"42", "2024-06-24", 1719223200000, 1719230400000, 2⟩

/-- Coordinator state caching `ev42`, with `42` selected for deletion. -/
def c4State : MutState := ⟨[ev42], DEFAULT_FORM, some "42", [], false, false, [], 0⟩

/-- A draft whose start instant falls on a Monday (2024-06-24). -/
def c9MondaySel : SelectedEvent := { DEFAULT_FORM with start := 1719223200000 }

/-- A draft whose start instant falls on a Sunday (2024-06-23). -/
def c9SundaySel : SelectedEvent := { DEFAULT_FORM with start := 1719136800000 }

/-- Cached events for the aggregation example: two on 2024-06-24 with 6 and
2 hours, one on 2024-07-01 (a different week) with 5 hours. -/
def aggE1 : CalEvent := ⟨"1", "2024-06-24", 1719223200000, 1719244800000, 6⟩

/-- Second cached event on 2024-06-24 (2 hours). -/
def aggE2 : CalEvent := ⟨"2", "2024-06-24", 1719250200000, 1719257400000, 2⟩

/-- Cached event on 2024-07-01, which lies in the following week (5 hours). -/
def aggE3 : CalEvent := ⟨"3", "2024-07-01", 1719828000000, 1719846000000, 5⟩

/-- START_OF_THE_YEAR for a 2024 session in a UTC zone. -/
def soy2024 : Int := 1704067200000

/-- C1: the claim says `initialiseFullCalendarJs` runs exactly once per
session whichever asynchronous completion arrives first. On the code it runs
twice in both interleavings of a non-empty data arrival and the resource
load: the `Promise.all` continuation calls it unconditionally after
`renderCalendar` has already conditionally called it, and a data arrival
after the resource load calls `renderCalendar` again. This theorem evaluates
both interleavings: the invocation count is 2, not 1. -/
theorem c1_widget_setup_runs_twice :
    (eventList (resourcesLoadedThen initialCalState) (.ok [sampleRaw])).initCount = 2 ∧
    (resourcesLoadedThen (eventList initialCalState (.ok [sampleRaw]))).initCount = 2 :=
  ⟨rfl, rfl⟩

/-- C2 counterexample: a successful create of a draft titled `A` with start
`S = 2024-06-24T10:00Z`, end `E = S + 2h` and server id `42` does not yield
the cache `[{id:42, title:A, start:S, end:E, durationHours:2}]` that the
claim demands: `saveEvent` overwrites the draft's title with the ISO date of
the start before caching. -/
theorem c2_create_counterexample :
    ¬ ((saveEvent 0 c2Start c2Stop (.ok "42") c2State).events =
      [⟨"42", "A", c2Start, c2Stop, 2⟩]) := by decide

/-- C2 amended: a successful create appends exactly one record carrying the
server id, the draft's start and end, `durationHours` as the rounded hour
span, and a title derived from the ISO date portion of the start (the
draft's submitted title is discarded); all previously cached records are
left unchanged, exactly one render-one widget call is issued, the spinner is
cleared and a refresh is triggered. -/
theorem c2_create_appends_with_derived_title (tzOffset fS fE : Int) (rid : String)
    (s : MutState) :
    (saveEvent tzOffset fS fE (.ok rid) s).events =
      s.events ++ [⟨rid, toISODateString fS, fS, fE, calculateWorkingHours fS fE⟩] ∧
    (saveEvent tzOffset fS fE (.ok rid) s).widgetCalls =
      s.widgetCalls ++ [.renderOne (toISODateString fS) (fS + tzOffset) (fE + tzOffset)
        (calculateWorkingHours fS fE)] ∧
    (saveEvent tzOffset fS fE (.ok rid) s).openSpinner = false ∧
    (saveEvent tzOffset fS fE (.ok rid) s).refreshCount = s.refreshCount + 1 :=
  ⟨rfl, rfl, rfl, rfl⟩

/-- C3 counterexample: with id `1` cached and a draft carrying different
start and end values, the cache immediately after the success continuation
of `editEvent` still holds the old record unchanged — in particular its
start is not the draft's start — refuting the claim that the cached record's
mutable fields are replaced in place. -/
theorem c3_update_counterexample :
    (editEvent 0 [c3Old] (.ok ()) c3State).events = [c3Old] ∧
    ¬ ((editEvent 0 [c3Old] (.ok ()) c3State).events.map CalEvent.start =
       [c3State.selectedEvent.start]) := by
  constructor
  · rfl
  · decide

/-- C3 amended: a successful `editEvent` leaves the cache untouched
(reconciliation is deferred to the refresh it triggers); it looks up the
widget's client event by the draft's id and patches that visual counterpart
— its start and end to the UTC-shifted draft times and its hours to the
recomputed span — issuing exactly one update widget call. -/
theorem c3_update_patches_widget_not_cache (tzOffset : Int)
    (clientEvents : List CalEvent) (s : MutState) (i : String) (ce : CalEvent)
    (hid : s.selectedEvent.id = some i)
    (hfind : clientEvents.find? (fun (e : CalEvent) => e.id == i) = some ce) :
    (editEvent tzOffset clientEvents (.ok ()) s).events = s.events ∧
    (editEvent tzOffset clientEvents (.ok ()) s).widgetCalls =
      s.widgetCalls ++ [.updateOne
        { ce with
          id := i,
          start := s.selectedEvent.start + tzOffset,
          stop := s.selectedEvent.stop + tzOffset,
          hours := calculateWorkingHours s.selectedEvent.start s.selectedEvent.stop }] ∧
    (editEvent tzOffset clientEvents (.ok ()) s).refreshCount = s.refreshCount + 1 := by
  simp [editEvent, hid, hfind, convertUtcTime]

/-- C3 witness: the amended update theorem applied at the concrete state
`c3State` with client events `[c3Old]`. -/
theorem c3_update_patches_widget_not_cache_witness :
    (editEvent 0 [c3Old] (.ok ()) c3State).events = c3State.events ∧
    (editEvent 0 [c3Old] (.ok ()) c3State).widgetCalls =
      c3State.widgetCalls ++ [.updateOne
        { c3Old with
          id := "1",
          start := c3State.selectedEvent.start + 0,
          stop := c3State.selectedEvent.stop + 0,
          hours := calculateWorkingHours c3State.selectedEvent.start
            c3State.selectedEvent.stop }] ∧
    (editEvent 0 [c3Old] (.ok ()) c3State).refreshCount = c3State.refreshCount + 1 :=
  c3_update_patches_widget_not_cache 0 [c3Old] c3State "1" c3Old rfl rfl

/-- C4 counterexample: deleting id `42` from a cache containing exactly that
record succeeds, yet the cache size immediately after the success
continuation is still 1, not 0 — the claim that the size drops by one is
false. -/
theorem c4_delete_counterexample :
    ¬ ((removeEvent (.ok ()) c4State).events.length = c4State.events.length - 1) := by
  decide

/-- C4 amended: a successful delete issues exactly one remove-by-id widget
call for the selected id, but does not remove the record from the cache: the
cache (hence every cached record) is unchanged immediately after the success
continuation and is only reconciled by the refresh the continuation
triggers; the spinner is cleared. -/
theorem c4_delete_removes_from_widget_only (s : MutState) :
    (removeEvent (.ok ()) s).events = s.events ∧
    (removeEvent (.ok ()) s).widgetCalls = s.widgetCalls ++ [.removeOne s.selectedId] ∧
    (removeEvent (.ok ()) s).openSpinner = false ∧
    (removeEvent (.ok ()) s).refreshCount = s.refreshCount + 1 :=
  ⟨rfl, rfl, rfl, rfl⟩

/-- C5: for every session offset and every instant `x`, converting to the
absolute representation (`convertUtcTime`, which adds the offset) and back
to the local representation (`convertLocalTime`, which subtracts it)
returns `x`. -/
theorem c5_time_normalization_round_trip (tzOffset x : Int) :
    convertLocalTime tzOffset (convertUtcTime tzOffset x) = x := by
  simp [convertLocalTime, convertUtcTime]

/-- C6: for every cache state, a store-rejected create, update or delete
leaves the cache identical to its pre-call value (so the cached record for
an updated id is unchanged), issues no widget call, and clears the
busy-spinner flag. -/
theorem c6_mutation_failure_atomic (tzOffset fS fE : Int)
    (clientEvents : List CalEvent) (msg : String) (s : MutState) :
    ((saveEvent tzOffset fS fE (.error msg) s).events = s.events ∧
      (saveEvent tzOffset fS fE (.error msg) s).widgetCalls = s.widgetCalls ∧
      (saveEvent tzOffset fS fE (.error msg) s).openSpinner = false) ∧
    ((editEvent tzOffset clientEvents (.error msg) s).events = s.events ∧
      (editEvent tzOffset clientEvents (.error msg) s).widgetCalls = s.widgetCalls ∧
      (editEvent tzOffset clientEvents (.error msg) s).openSpinner = false) ∧
    ((removeEvent (.error msg) s).events = s.events ∧
      (removeEvent (.error msg) s).widgetCalls = s.widgetCalls ∧
      (removeEvent (.error msg) s).openSpinner = false) :=
  ⟨⟨rfl, rfl, rfl⟩, ⟨rfl, rfl, rfl⟩, ⟨rfl, rfl, rfl⟩⟩

/-- C7: an event spanning exactly `N` whole hours gets `durationHours = N`
exactly after the two-decimal rounding, and `changeHandler` recomputes the
hours from the updated start or end together with the other, unchanged
bound. -/
theorem c7_duration_recomputed (s : Int) (N : ℕ) (sel : SelectedEvent) (v : Int) :
    calculateWorkingHours s (s + (N : Int) * msPerHour) = N ∧
    (changeHandler sel (.start v)).hours = calculateWorkingHours v sel.stop ∧
    (changeHandler sel (.stop v)).hours = calculateWorkingHours sel.start v := by
  refine ⟨?_, rfl, rfl⟩
  unfold calculateWorkingHours toFixed2
  have h1 : ((s + (N : Int) * msPerHour : Int) : ℚ) - (s : ℚ) = (N : ℚ) * (msPerHour : ℚ) := by
    push_cast
    ring
  rw [h1]
  have hm : (msPerHour : ℚ) ≠ 0 := by norm_num [msPerHour]
  rw [mul_div_assoc, div_self hm, mul_one]
  have h2 : (N : ℚ) * 100 = (((N : ℤ) * 100 : ℤ) : ℚ) := by push_cast; ring
  rw [h2, round_intCast]
  push_cast
  field_simp

/-- C8: the aggregation groups by week number, then by date title; on the
example cache the two 2024-06-24 events merge into one date group with
`dailyTotalHours = 8` and the 2024-07-01 event forms a second week group,
ordered by week number; and for every cache the produced week groups are
sorted by ascending week number with each week's date groups sorted by
ascending title. -/
theorem c8_weekly_aggregation (tz soy : Int) (cache : List CalEvent) :
    groupedEventsBasedOnWeekNumber 0 soy2024 [aggE1, aggE2, aggE3] =
      [⟨some 26, [⟨"2024-06-24", "Tue", [aggE1, aggE2], 8⟩], 8⟩,
       ⟨some 27, [⟨"2024-07-01", "Tue", [aggE3], 5⟩], 5⟩] ∧
    List.Sorted weekGroupLe (groupedEventsBasedOnWeekNumber tz soy cache) ∧
    (groupedEventsBasedOnWeekNumber tz soy cache).Forall
      (fun w => List.Sorted dateGroupLe w.weeks) := by
  refine ⟨?_, ?_, ?_⟩
  · have h1 : parseISODate "2024-06-24" = some 1719187200000 := by decide
    have h2 : parseISODate "2024-07-01" = some 1719792000000 := by decide
    have h3 : getWeekNumber soy2024 1719187200000 = 26 := by
      simp only [getWeekNumber]
      rw [Int.ceil_eq_iff]
      norm_num [soy2024, msPerDay]
    have h4 : getWeekNumber soy2024 1719792000000 = 27 := by
      simp only [getWeekNumber]
      rw [Int.ceil_eq_iff]
      norm_num [soy2024, msPerDay]
    simp only [groupedEventsBasedOnWeekNumber, aggE1, aggE2, aggE3, List.foldl,
      h1, h2, h3, h4, Option.map_some']
    norm_num [addToWeekGroups, addToDateGroups, List.insertionSort, List.orderedInsert,
      List.map, getWeekdayName, jsGetDay, msPerDay, WEEKDAYS, weekGroupLe, weekNumberLe,
      dateGroupLe, strLe, charListLe]
  · simp only [groupedEventsBasedOnWeekNumber]
    exact List.sorted_insertionSort weekGroupLe _
  · simp only [groupedEventsBasedOnWeekNumber]
    rw [List.forall_iff_forall_mem]
    intro w hw
    have hw2 := (List.perm_insertionSort weekGroupLe _).subset hw
    obtain ⟨w', hw', rfl⟩ := List.mem_map.mp hw2
    exact List.sorted_insertionSort dateGroupLe _

/-- C9: the claim says the weekday label corresponds to the date's actual
day of the week in the Monday-first table (`Mon` for a Monday, `Sun` for a
Sunday). The code indexes the Monday-first table with the Sunday-first
`getDay()` index, so the derived title is correct but a Monday start is
labelled `Tue` and a Sunday start is labelled `Mon`. -/
theorem c9_weekday_label_off_by_one :
    (createTitleBasedOnStartDate 0 c9MondaySel).title = "2024-06-24" ∧
    (createTitleBasedOnStartDate 0 c9MondaySel).weekday = "Tue" ∧
    (createTitleBasedOnStartDate 0 c9SundaySel).title = "2024-06-23" ∧
    (createTitleBasedOnStartDate 0 c9SundaySel).weekday = "Mon" := by
  decide

/-- C10: the claim says a failed fetch empties the cache, issues a user
notification, and performs no widget call. On the code the cache is emptied
and no widget call is made, but the notification is never issued: evaluating
`this.TOAST_VARIANT.error` throws a TypeError before `showToast` runs, and
the exception escapes the handler. This theorem evaluates the failing path
for every prior state: cache empty, widget log and setup counter unchanged,
no toast delivered, exception thrown. -/
theorem c10_fetch_failure_notification_lost (s : CalState) (msg : String) :
    (eventList s (.error msg)).events = [] ∧
    (eventList s (.error msg)).widgetCalls = s.widgetCalls ∧
    (eventList s (.error msg)).initCount = s.initCount ∧
    (eventList s (.error msg)).toasts = s.toasts ∧
    (eventList s (.error msg)).threw = true :=
  ⟨rfl, rfl, rfl, rfl, rfl⟩
